import Mathlib

/-!
Shallow embedding of the accounting core of the repository (Django app
`accounting`): the journal data model and entry lifecycle (`models.py`), the
trial balance engine (`trial_balance_service.py`), the profit-and-loss engine
(`pnl_service.py`), the balance sheet engine (`balance_sheet_service.py`),
the account ledger engine (`ledger_service.py`) and the GST breakdown helper
(`schemas.py`).

Modelling conventions:
* Monetary amounts are `DecimalField(decimal_places=2)` values, i.e. exact
  multiples of 0.01; they are embedded as `Int` numbers of paise (hundredths),
  so the tolerance `Decimal('0.01')` becomes the integer `1`.
* Dates are embedded as `Nat` day ordinals; `date.today()` becomes an explicit
  `today` parameter.
* The database is a pair of lists: the chart of accounts (`Account` rows, kept
  in code order, matching `Account.Meta.ordering = ['code']` so that
  `order_by('code')` is the identity on the stored list) and the journal
  entries, each owning its list of `JournalLine` children.
* Django ORM aggregates (`Sum` returning `None` on an empty queryset, coalesced
  with `or Decimal('0')`) become `List.sum`, whose value on `[]` is `0`.
* Operations that raise (`ValueError` in `approve`/`post`) are embedded as
  `Except String`, the error carrying the exact message; the stored entry is
  only changed through the `Except.ok` branch.
-/

namespace Prilika

/-- Account types from `Account.AccountType` in `models.py`. -/
inductive AccountType where
  | asset
  | liability
  | income
  | expense
  | equity
  deriving DecidableEq, Repr

/-- Entry statuses from `JournalEntry.Status` in `models.py`. -/
inductive Status where
  | draft
  | flagged
  | pending_review
  | approved
  | posted
  | rejected
  deriving DecidableEq, Repr

/-- A `JournalLine` row from `models.py`: a single debit/credit line of a
journal entry. `id` is the database primary key (the model orders lines by
`id`). Amounts are in paise. -/
structure JournalLine where
  id : Nat
  account_code : String
  account_name : String
  debit : Int
  credit : Int
  deriving DecidableEq, Repr

/-- A `JournalEntry` row from `models.py`, together with its owned lines
(the `lines` related manager). -/
structure JournalEntry where
  id : Nat
  entry_number : String
  transaction_date : Nat
  transaction_type : String
  narration : String
  reference : String
  status : Status
  lines : List JournalLine
  reviewed_by : String
  review_notes : String
  reviewed_at : Option Nat
  posted_at : Option Nat
  deriving DecidableEq, Repr

/-- An `Account` row from `models.py` (chart of accounts). -/
structure Account where
  code : String
  name : String
  account_type : AccountType
  account_subtype : String
  is_active : Bool
  deriving DecidableEq, Repr

/-- The persistent state read by the statement engines: the chart of accounts
(in code order) and the journal entries with their lines. -/
structure DB where
  accounts : List Account
  entries : List JournalEntry
  deriving DecidableEq, Repr

/-- `JournalEntry.is_balanced` from `models.py`: aggregate `Sum` of debit and
of credit over the entry's lines (an absent aggregate, i.e. no lines, is
coalesced to 0), compared for equality. -/
def JournalEntry.is_balanced (e : JournalEntry) : Bool :=
  (e.lines.map (·.debit)).sum == (e.lines.map (·.credit)).sum

/-- `JournalEntry.approve` from `models.py`: raises
`ValueError("Cannot approve unbalanced entry")` unless `is_balanced`;
otherwise sets status to approved and stamps reviewer, notes and time. -/
def JournalEntry.approve (e : JournalEntry) (reviewer : String) (notes : String)
    (now : Nat) : Except String JournalEntry :=
  if !e.is_balanced then
    .error "Cannot approve unbalanced entry"
  else
    .ok { e with status := .approved, reviewed_by := reviewer,
                 review_notes := notes, reviewed_at := some now }

/-- `JournalEntry.reject` from `models.py`: unconditionally sets status to
rejected and stamps reviewer, notes and time (the source has no guard). -/
def JournalEntry.reject (e : JournalEntry) (reviewer : String) (notes : String)
    (now : Nat) : JournalEntry :=
  { e with status := .rejected, reviewed_by := reviewer,
           review_notes := notes, reviewed_at := some now }

/-- `JournalEntry.post` from `models.py`: raises
`ValueError("Only approved entries can be posted")` unless the status is
approved; otherwise sets status to posted and stamps `posted_at`. -/
def JournalEntry.post (e : JournalEntry) (now : Nat) : Except String JournalEntry :=
  if e.status ≠ Status.approved then
    .error "Only approved entries can be posted"
  else
    .ok { e with status := .posted, posted_at := some now }

/-- The line population every balance query draws from: all (entry, line)
pairs whose parent entry has `status='posted'` and whose
`journal_entry__transaction_date` passes the given date filter. This mirrors
the common ORM filter `journal_entry__status='posted'` (plus date bounds) of
the four statement services. -/
def postedLines (db : DB) (dateOk : Nat → Bool) : List (JournalEntry × JournalLine) :=
  (db.entries.filter (fun e => e.status == Status.posted && dateOk e.transaction_date)).flatMap
    (fun e => e.lines.map (fun l => (e, l)))

/-- Aggregate `Sum('debit')` over the lines of `ls` carrying `code`, coalesced
to 0 when no line matches. -/
def sumDebit (ls : List (JournalEntry × JournalLine)) (code : String) : Int :=
  ((ls.filter (fun p => p.2.account_code == code)).map (fun p => p.2.debit)).sum

/-- Aggregate `Sum('credit')` over the lines of `ls` carrying `code`, coalesced
to 0 when no line matches. -/
def sumCredit (ls : List (JournalEntry × JournalLine)) (code : String) : Int :=
  ((ls.filter (fun p => p.2.account_code == code)).map (fun p => p.2.credit)).sum

/-- Division of `n` by `d` (with `d > 0` and, at every call site of the GST
helper, `n ≥ 0`) rounded half up to the nearest integer — the effect of
`Decimal.quantize(Decimal("0.01"), rounding=ROUND_HALF_UP)` once all amounts
are scaled to integer paise. -/
def divHalfUp (n d : Int) : Int :=
  (2 * n + d) / (2 * d)

/-- A `GSTBreakdown` record from `schemas.py` (amounts in paise). -/
structure GSTBreakdown where
  total_amount : Int
  base_amount : Int
  cgst : Int
  sgst : Int
  deriving DecidableEq, Repr

/-- `GSTBreakdown.from_inclusive_amount` from `schemas.py`: for an amount
inclusive of 18% GST, base = total / 1.18 quantized half-up to 0.01,
cgst = sgst = base * 0.09 quantized half-up to 0.01, and any difference
between base + cgst + sgst and the original total added onto sgst. In paise,
total / 1.18 is total * 100 / 118 and base * 0.09 is base * 9 / 100. -/
def GSTBreakdown.from_inclusive_amount (total : Int) : GSTBreakdown :=
  let base := divHalfUp (total * 100) 118
  let cgst := divHalfUp (base * 9) 100
  let sgst := divHalfUp (base * 9) 100
  let calculated_total := base + cgst + sgst
  let sgst := if calculated_total ≠ total then sgst + (total - calculated_total) else sgst
  { total_amount := total, base_amount := base, cgst := cgst, sgst := sgst }

/-- One row of the trial balance (`code/name/debit_balance/credit_balance`
dict appended in `get_trial_balance`). -/
structure TBRow where
  code : String
  name : String
  debit_balance : Int
  credit_balance : Int
  deriving DecidableEq, Repr

/-- `_calculate_account_balance` from `trial_balance_service.py`: aggregate
posted debits and credits for the account up to `as_of`, then express the net
balance on the account type's normal side, flipping a negative balance to a
positive amount on the opposite side. Returns
(debit_balance, credit_balance). -/
def tbAccountBalance (db : DB) (account : Account) (as_of : Nat) : Int × Int :=
  let ls := postedLines db (fun d => decide (d ≤ as_of))
  let debit := sumDebit ls account.code
  let credit := sumCredit ls account.code
  match account.account_type with
  | .asset | .expense =>
    let balance := debit - credit
    if 0 ≤ balance then (balance, 0) else (0, |balance|)
  | _ =>
    let balance := credit - debit
    if 0 ≤ balance then (0, balance) else (|balance|, 0)

/-- The record returned by `get_trial_balance`. The Python dict
`accounts_by_type` (keyed by the five types, rows appended in account order)
is flattened here into `rows`, each row paired with its account's type; the
per-type list is the subsequence of `rows` with that type. -/
structure TrialBalance where
  rows : List (AccountType × TBRow)
  total_debit : Int
  total_credit : Int
  difference : Int
  is_balanced : Bool
  as_of_date : Nat
  deriving DecidableEq, Repr

/-- `get_trial_balance` from `trial_balance_service.py`: walk the active
accounts in code order, include a row when the account is an expense account
or either balance side is non-zero, and accumulate the two column totals over
the included rows. -/
def get_trial_balance (db : DB) (as_of : Nat) : TrialBalance :=
  let accounts := db.accounts.filter (·.is_active)
  let rows := accounts.filterMap (fun a =>
    let b := tbAccountBalance db a as_of
    if a.account_type == AccountType.expense || !(b.1 == 0) || !(b.2 == 0) then
      some (a.account_type, TBRow.mk a.code a.name b.1 b.2)
    else
      none)
  let total_debit := (rows.map (fun r => r.2.debit_balance)).sum
  let total_credit := (rows.map (fun r => r.2.credit_balance)).sum
  let difference := total_debit - total_credit
  { rows := rows, total_debit := total_debit, total_credit := total_credit,
    difference := difference, is_balanced := decide (|difference| < 1),
    as_of_date := as_of }

/-- One income or expense row of the profit-and-loss statement. -/
structure PnLRow where
  code : String
  name : String
  amount : Int
  deriving DecidableEq, Repr

/-- The record returned by `get_profit_loss` (the presentation-only
`period_label` string is omitted). -/
structure ProfitLoss where
  income_accounts : List PnLRow
  total_income : Int
  expense_accounts : List PnLRow
  total_expenses : Int
  net_profit_loss : Int
  is_profit : Bool
  from_date : Option Nat
  to_date : Nat
  deriving DecidableEq, Repr

/-- The date filter of `get_profit_loss`: `transaction_date__lte=to_date`
always, plus `transaction_date__gte=from_date` when a from date is given. -/
def pnlDateOk (from_date : Option Nat) (to_date : Nat) (d : Nat) : Bool :=
  decide (d ≤ to_date) &&
    (match from_date with
     | none => true
     | some f => decide (f ≤ d))

/-- The account queryset `Account.objects.filter(is_active=True,
account_type=...)` shared by the P&L and balance sheet services. -/
def activeOfType (accounts : List Account) (t : AccountType) : List Account :=
  accounts.filter (fun a => a.is_active && a.account_type == t)

/-- The income section of `get_profit_loss`: per active income account the
period balance credit − debit (the grouped batch query keyed by
`account_code`, with a missing group read as 0, is this same per-account-code
aggregate), listing only non-zero balances. -/
def pnlIncomeRows (accounts : List Account)
    (ls : List (JournalEntry × JournalLine)) : List PnLRow :=
  (activeOfType accounts AccountType.income).filterMap (fun a =>
    let balance := sumCredit ls a.code - sumDebit ls a.code
    if !(balance == 0) then some (PnLRow.mk a.code a.name balance) else none)

/-- The expense section of `get_profit_loss`: per active expense account the
period balance debit − credit, listing only non-zero balances. -/
def pnlExpenseRows (accounts : List Account)
    (ls : List (JournalEntry × JournalLine)) : List PnLRow :=
  (activeOfType accounts AccountType.expense).filterMap (fun a =>
    let balance := sumDebit ls a.code - sumCredit ls a.code
    if !(balance == 0) then some (PnLRow.mk a.code a.name balance) else none)

/-- `get_profit_loss` from `pnl_service.py`: `to_date` defaults to today; the
income and expense sections are listed and totalled over non-zero balances
only; the net result is returned as an absolute value together with the
`is_profit` flag computed on the signed net before the absolute value is
taken. -/
def get_profit_loss (db : DB) (today : Nat) (from_date : Option Nat)
    (to_date? : Option Nat) : ProfitLoss :=
  let to_date := to_date?.getD today
  let ls := postedLines db (pnlDateOk from_date to_date)
  let incomeRows := pnlIncomeRows db.accounts ls
  let total_income := (incomeRows.map (·.amount)).sum
  let expenseRows := pnlExpenseRows db.accounts ls
  let total_expenses := (expenseRows.map (·.amount)).sum
  let net := total_income - total_expenses
  { income_accounts := incomeRows, total_income := total_income,
    expense_accounts := expenseRows, total_expenses := total_expenses,
    net_profit_loss := |net|, is_profit := decide (0 ≤ net),
    from_date := from_date, to_date := to_date }

/-- One account row of the balance sheet (`code/name/balance`). -/
structure BSRow where
  code : String
  name : String
  balance : Int
  deriving DecidableEq, Repr

/-- `Account.is_current_asset` from `models.py`: an asset account is current
unless its subtype is one of the fixed non-current subtypes. -/
def Account.is_current_asset (a : Account) : Bool :=
  a.account_type == AccountType.asset &&
    !(["security_deposit", "fixed_asset", "long_term_investment"].contains a.account_subtype)

/-- `_calculate_account_balance` from `balance_sheet_service.py`: look the
account code up in the pre-fetched grouped totals over all posted lines (a
missing group reads as 0 debit / 0 credit) and sign by the account type
string passed by the caller. -/
def bsAccountBalance (ls : List (JournalEntry × JournalLine)) (code : String)
    (t : AccountType) : Int :=
  let debit := sumDebit ls code
  let credit := sumCredit ls code
  match t with
  | .asset => debit - credit
  | .liability | .equity => credit - debit
  | _ => 0

/-- The record returned by `get_balance_sheet`. -/
structure BalanceSheet where
  current_assets : List BSRow
  non_current_assets : List BSRow
  total_current_assets : Int
  total_non_current_assets : Int
  total_assets : Int
  current_liabilities : List BSRow
  total_current_liabilities : Int
  total_liabilities : Int
  equity_accounts : List BSRow
  retained_earnings : Int
  total_equity : Int
  liabilities_plus_equity : Int
  is_balanced : Bool
  difference : Int
  as_of_date : Nat
  deriving DecidableEq, Repr

/-- The current-asset section of `get_balance_sheet`: active asset accounts
whose balance is non-zero and whose subtype classifies them as current. -/
def bsCurrentAssets (accounts : List Account)
    (ls : List (JournalEntry × JournalLine)) : List BSRow :=
  (activeOfType accounts AccountType.asset).filterMap (fun a =>
    let b := bsAccountBalance ls a.code AccountType.asset
    if !(b == 0) && a.is_current_asset then some (BSRow.mk a.code a.name b) else none)

/-- The non-current-asset section of `get_balance_sheet`: active asset
accounts with a non-zero balance and a non-current subtype. -/
def bsNonCurrentAssets (accounts : List Account)
    (ls : List (JournalEntry × JournalLine)) : List BSRow :=
  (activeOfType accounts AccountType.asset).filterMap (fun a =>
    let b := bsAccountBalance ls a.code AccountType.asset
    if !(b == 0) && !a.is_current_asset then some (BSRow.mk a.code a.name b) else none)

/-- The liability section of `get_balance_sheet`: active liability accounts
with a non-zero balance (the service treats every liability as current). -/
def bsCurrentLiabilities (accounts : List Account)
    (ls : List (JournalEntry × JournalLine)) : List BSRow :=
  (activeOfType accounts AccountType.liability).filterMap (fun a =>
    let b := bsAccountBalance ls a.code AccountType.liability
    if !(b == 0) then some (BSRow.mk a.code a.name b) else none)

/-- The equity section of `get_balance_sheet`: every active equity account is
listed, a zero balance included. -/
def bsEquityRows (accounts : List Account)
    (ls : List (JournalEntry × JournalLine)) : List BSRow :=
  (activeOfType accounts AccountType.equity).map (fun a =>
    BSRow.mk a.code a.name (bsAccountBalance ls a.code AccountType.equity))

/-- `get_balance_sheet` from `balance_sheet_service.py`: group posted line
totals by account code up to `as_of`; split the non-zero active asset
balances into current and non-current by subtype; list the non-zero active
liability balances; list every active equity account (zero included); fold in
retained earnings from `get_profit_loss(from_date=None, to_date=as_of_date)`
with the sign restored from `is_profit`; and report the accounting-equation
check. The source's single loop per section, which appends a row and adds its
balance to the running subtotal under the same condition, is rendered as a
`filterMap` for the rows followed by a sum of the listed balances. -/
def get_balance_sheet (db : DB) (as_of : Nat) : BalanceSheet :=
  let ls := postedLines db (fun d => decide (d ≤ as_of))
  let current_assets := bsCurrentAssets db.accounts ls
  let non_current_assets := bsNonCurrentAssets db.accounts ls
  let total_current_assets := (current_assets.map (·.balance)).sum
  let total_non_current_assets := (non_current_assets.map (·.balance)).sum
  let total_assets := total_current_assets + total_non_current_assets
  let current_liabilities := bsCurrentLiabilities db.accounts ls
  let total_current_liabilities := (current_liabilities.map (·.balance)).sum
  let total_liabilities := total_current_liabilities
  let equity_list := bsEquityRows db.accounts ls
  let pnl := get_profit_loss db as_of none (some as_of)
  let retained_earnings :=
    if pnl.is_profit then pnl.net_profit_loss else -pnl.net_profit_loss
  let equity_sum := (equity_list.map (·.balance)).sum
  let total_equity := equity_sum + retained_earnings
  let liabilities_plus_equity := total_liabilities + total_equity
  let difference := total_assets - liabilities_plus_equity
  { current_assets := current_assets,
    non_current_assets := non_current_assets,
    total_current_assets := total_current_assets,
    total_non_current_assets := total_non_current_assets,
    total_assets := total_assets,
    current_liabilities := current_liabilities,
    total_current_liabilities := total_current_liabilities,
    total_liabilities := total_liabilities,
    equity_accounts := equity_list,
    retained_earnings := retained_earnings,
    total_equity := total_equity,
    liabilities_plus_equity := liabilities_plus_equity,
    is_balanced := decide (|difference| < 1),
    difference := difference,
    as_of_date := as_of }

/-- One transaction row of an account ledger. -/
structure LedgerRow where
  date : Nat
  entry_number : String
  entry_id : Nat
  narration : String
  reference : String
  transaction_type : String
  debit : Int
  credit : Int
  balance : Int
  deriving DecidableEq, Repr

/-- The record returned by `get_account_ledger` when the account exists. -/
structure Ledger where
  account : Account
  opening_balance : Int
  transactions : List LedgerRow
  total_debit : Int
  total_credit : Int
  closing_balance : Int
  start_date : Option Nat
  end_date : Option Nat
  deriving DecidableEq, Repr

/-- The two shapes of dict `get_account_ledger` returns: the not-found dict
`{'error': ..., 'account': None, 'transactions': []}` or the full ledger. -/
inductive LedgerResult where
  | notFound (error : String) (account : Option Account) (transactions : List LedgerRow)
  | found (ledger : Ledger)
  deriving DecidableEq, Repr

/-- The `order_by('journal_entry__transaction_date', 'journal_entry__id',
'id')` comparison of the ledger query, as a lexicographic Bool order on
(entry, line) pairs. -/
def ledgerLE (p q : JournalEntry × JournalLine) : Bool :=
  decide (p.1.transaction_date < q.1.transaction_date ∨
    (p.1.transaction_date = q.1.transaction_date ∧
      (p.1.id < q.1.id ∨ (p.1.id = q.1.id ∧ p.2.id ≤ q.2.id))))

/-- Per-line running-balance update of the ledger walk: debit increases and
credit decreases for asset/expense accounts, the reverse otherwise. -/
def lineContribution (t : AccountType) (l : JournalLine) : Int :=
  match t with
  | .asset | .expense => l.debit - l.credit
  | _ => l.credit - l.debit

/-- Signed contribution read back from an emitted ledger row (same sign
convention as `lineContribution`, applied to the row's copied amounts). -/
def rowContribution (t : AccountType) (r : LedgerRow) : Int :=
  match t with
  | .asset | .expense => r.debit - r.credit
  | _ => r.credit - r.debit

/-- The transaction-building loop of `get_account_ledger`: one emitted row per
line, carrying the entry's date, number, id, narration, reference and type,
the line's amounts, and the running balance after the line. -/
def ledgerRowsFrom (t : AccountType) : Int → List (JournalEntry × JournalLine) → List LedgerRow
  | _, [] => []
  | bal, p :: rest =>
    let bal' := bal + lineContribution t p.2
    LedgerRow.mk p.1.transaction_date p.1.entry_number p.1.id p.1.narration
      p.1.reference p.1.transaction_type p.2.debit p.2.credit bal' ::
      ledgerRowsFrom t bal' rest

/-- `get_account_ledger` from `ledger_service.py`: resolve the account code
(`Account.objects.get`; the code column is unique, so the first match is the
only match) and return the explicit not-found dict when it does not resolve;
otherwise sort the account's posted lines by (transaction date, entry id,
line id), apply the optional date window, compute the opening balance from
the posted lines strictly before the start date, and walk the windowed lines
accumulating the running balance. -/
def get_account_ledger (db : DB) (account_code : String)
    (start_date end_date : Option Nat) : LedgerResult :=
  match db.accounts.find? (fun a => a.code == account_code) with
  | none => .notFound ("Account " ++ account_code ++ " not found") none []
  | some account =>
    let allLines := (postedLines db (fun _ => true)).filter
      (fun p => p.2.account_code == account_code)
    let sorted := allLines.mergeSort ledgerLE
    let windowed := sorted.filter (fun p =>
      (match start_date with
       | none => true
       | some s => decide (s ≤ p.1.transaction_date)) &&
      (match end_date with
       | none => true
       | some e => decide (p.1.transaction_date ≤ e)))
    let opening_balance :=
      match start_date with
      | none => 0
      | some s =>
        let before := allLines.filter (fun p => decide (p.1.transaction_date < s))
        let od := (before.map (fun p => p.2.debit)).sum
        let oc := (before.map (fun p => p.2.credit)).sum
        match account.account_type with
        | .asset | .expense => od - oc
        | _ => oc - od
    let transactions := ledgerRowsFrom account.account_type opening_balance windowed
    let total_debit := (transactions.map (·.debit)).sum
    let total_credit := (transactions.map (·.credit)).sum
    let closing_balance := windowed.foldl
      (fun b p => b + lineContribution account.account_type p.2) opening_balance
    .found { account := account, opening_balance := opening_balance,
             transactions := transactions, total_debit := total_debit,
             total_credit := total_credit, closing_balance := closing_balance,
             start_date := start_date, end_date := end_date }

/-- `Account.balance` property from `models.py`: aggregate every posted line
carrying this account's code (no date bound) and sign by the account type:
debit − credit for asset/expense, credit − debit otherwise. -/
def Account.balance (db : DB) (a : Account) : Int :=
  let ls := (postedLines db (fun _ => true)).filter
    (fun p => p.2.account_code == a.code)
  let debit := (ls.map (fun p => p.2.debit)).sum
  let credit := (ls.map (fun p => p.2.credit)).sum
  match a.account_type with
  | .asset | .expense => debit - credit
  | _ => credit - debit

/-- Sample chart of accounts and journal (one posted, balanced invoice entry
over active accounts of all five types, plus one draft entry): concrete data
for evaluating the statement engines. -/
def sampleDB : DB :=
  { accounts := [
      ⟨"A001", "SBI Current", .asset, "cash_and_bank", true⟩,
      ⟨"E001", "Salary Expense", .expense, "salary", true⟩,
      ⟨"EQ001", "Capital", .equity, "capital", true⟩,
      ⟨"I001", "CFA Commission", .income, "service_income", true⟩,
      ⟨"L001", "CGST Payable", .liability, "tax_payable", true⟩],
    entries := [
      { id := 1, entry_number := "JV-2024-00001", transaction_date := 5,
        transaction_type := "invoice", narration := "commission invoice",
        reference := "", status := .posted,
        lines := [⟨1, "A001", "SBI Current", 11800000, 0⟩,
                  ⟨2, "I001", "CFA Commission", 0, 10000000⟩,
                  ⟨3, "L001", "CGST Payable", 0, 1800000⟩],
        reviewed_by := "reviewer", review_notes := "", reviewed_at := some 4,
        posted_at := some 5 },
      { id := 2, entry_number := "JV-2024-00002", transaction_date := 6,
        transaction_type := "expense", narration := "draft expense",
        reference := "", status := .draft,
        lines := [⟨4, "E001", "Salary Expense", 500, 0⟩,
                  ⟨5, "A001", "SBI Current", 0, 500⟩],
        reviewed_by := "", review_notes := "", reviewed_at := none,
        posted_at := none }] }

/-- A chart holding one active expense account and an empty journal: its trial
balance lists the expense account with a zero balance on both sides. -/
def expenseOnlyDB : DB :=
  { accounts := [⟨"E004", "Miscellaneous Expense", .expense, "other", true⟩],
    entries := [] }

/-- An empty database: no account code resolves. -/
def emptyDB : DB :=
  { accounts := [], entries := [] }

/-- A draft entry whose lines do not balance (total debit 100, total
credit 0). -/
def unbalancedDraft : JournalEntry :=
  { id := 3, entry_number := "JV-2024-00003", transaction_date := 7,
    transaction_type := "expense", narration := "unbalanced",
    reference := "", status := .draft,
    lines := [⟨6, "E001", "Salary Expense", 100, 0⟩],
    reviewed_by := "", review_notes := "", reviewed_at := none,
    posted_at := none }

/-- A draft entry whose single line carries the same positive amount on both
its debit and its credit side — the stored model accepts it, and the
aggregate totals agree. -/
def equalSidesDraft : JournalEntry :=
  { id := 4, entry_number := "JV-2024-00004", transaction_date := 8,
    transaction_type := "expense", narration := "both sides",
    reference := "", status := .draft,
    lines := [⟨7, "A001", "SBI Current", 50000, 50000⟩],
    reviewed_by := "", review_notes := "", reviewed_at := none,
    posted_at := none }

/-- A balanced entry that has already been posted. -/
def postedEntry : JournalEntry :=
  { id := 5, entry_number := "JV-2024-00005", transaction_date := 9,
    transaction_type := "receipt", narration := "already posted",
    reference := "", status := .posted,
    lines := [⟨8, "A001", "SBI Current", 200, 0⟩,
              ⟨9, "I001", "CFA Commission", 0, 200⟩],
    reviewed_by := "reviewer", review_notes := "", reviewed_at := some 8,
    posted_at := some 9 }

/-! Helper lemmas about list sums, used to relate the statement engines to
whole-journal aggregates. -/

/-- A mapped sum splits along a Bool predicate. -/
theorem sum_map_filter_split {α : Type} (p : α → Bool) (f : α → Int) (l : List α) :
    ((l.filter p).map f).sum + ((l.filter (fun a => !p a)).map f).sum = (l.map f).sum := by
  induction l with
  | nil => simp
  | cons a l ih =>
    cases h : p a <;> simp [List.filter_cons, h] <;> omega

/-- Summing a difference of maps is the difference of the mapped sums. -/
theorem sum_map_sub {α : Type} (f g : α → Int) (l : List α) :
    (l.map (fun a => f a - g a)).sum = (l.map f).sum - (l.map g).sum := by
  induction l with
  | nil => simp
  | cons a l ih => simp [ih]; omega

/-- Summing a negated map is the negated mapped sum. -/
theorem sum_map_neg {α : Type} (f : α → Int) (l : List α) :
    (l.map (fun a => -f a)).sum = -(l.map f).sum := by
  induction l with
  | nil => simp
  | cons a l ih => simp [ih]; omega

/-- Mapping over a flatMap sums section by section. -/
theorem sum_map_flatMap {α β : Type} (l : List α) (f : α → List β) (g : β → Int) :
    ((l.flatMap f).map g).sum = (l.map (fun x => ((f x).map g).sum)).sum := by
  induction l with
  | nil => rfl
  | cons a l ih => simp [List.flatMap_cons, ih]

/-- Folding `+` over a list equals the starting value plus the mapped sum. -/
theorem foldl_add_sum {α : Type} (g : α → Int) (l : List α) (init : Int) :
    l.foldl (fun b p => b + g p) init = init + (l.map g).sum := by
  induction l generalizing init with
  | nil => simp
  | cons a l ih => simp [ih]; omega

/-- Grouping a mapped sum by a list of pairwise-distinct keys covering every
element recovers the ungrouped sum. -/
theorem sum_partition_key {α : Type} (key : α → String) (f : α → Int) :
    ∀ (codes : List String) (l : List α),
      codes.Nodup →
      (∀ x ∈ l, key x ∈ codes) →
      (codes.map (fun c => ((l.filter (fun x => key x == c)).map f).sum)).sum
        = (l.map f).sum := by
  intro codes
  induction codes with
  | nil =>
    intro l _ hall
    have hl : l = [] :=
      List.eq_nil_iff_forall_not_mem.mpr (fun x hx => by simpa using hall x hx)
    simp [hl]
  | cons c cs ih =>
    intro l hnodup hall
    have hc : c ∉ cs := (List.nodup_cons.mp hnodup).1
    have hnd : cs.Nodup := (List.nodup_cons.mp hnodup).2
    have hterm : ∀ c' ∈ cs,
        ((l.filter (fun x => !(key x == c))).filter (fun x => key x == c'))
          = l.filter (fun x => key x == c') := by
      intro c' hc'
      rw [List.filter_filter]
      apply List.filter_congr
      intro x _
      by_cases h : key x = c'
      · have hne : ¬ c' = c := fun e => hc (e ▸ hc')
        simp [h, hne]
      · simp [h]
    have hcover : ∀ x ∈ l.filter (fun x => !(key x == c)), key x ∈ cs := by
      intro x hx
      rw [List.mem_filter] at hx
      rcases List.mem_cons.mp (hall x hx.1) with h | h
      · exact absurd h (by simpa using hx.2)
      · exact h
    have hIH := ih (l.filter (fun x => !(key x == c))) hnd hcover
    calc (((c :: cs)).map
            (fun c' => ((l.filter (fun x => key x == c')).map f).sum)).sum
        = ((l.filter (fun x => key x == c)).map f).sum
            + (cs.map (fun c' =>
                (((l.filter (fun x => !(key x == c))).filter
                    (fun x => key x == c')).map f).sum)).sum := by
          rw [List.map_cons, List.sum_cons]
          congr 1
          apply congrArg
          apply List.map_congr_left
          intro c' hc'
          rw [hterm c' hc']
      _ = ((l.filter (fun x => key x == c)).map f).sum
            + ((l.filter (fun x => !(key x == c))).map f).sum := by rw [hIH]
      _ = (l.map f).sum := sum_map_filter_split _ f l

/-- Membership in the posted-line population. -/
theorem mem_postedLines {db : DB} {dateOk : Nat → Bool}
    {p : JournalEntry × JournalLine} :
    p ∈ postedLines db dateOk ↔
      p.1 ∈ db.entries ∧ p.1.status = Status.posted ∧
        dateOk p.1.transaction_date = true ∧ p.2 ∈ p.1.lines := by
  obtain ⟨e, l⟩ := p
  simp only [postedLines, List.mem_flatMap, List.mem_filter, List.mem_map,
    Bool.and_eq_true, beq_iff_eq]
  constructor
  · rintro ⟨e', ⟨he, hs, hd⟩, l', hl, heq⟩
    obtain ⟨rfl, rfl⟩ := Prod.mk.injEq .. ▸ heq
    exact ⟨he, hs, hd, hl⟩
  · rintro ⟨he, hs, hd, hl⟩
    exact ⟨e, ⟨he, hs, hd⟩, l, hl, rfl⟩

/-- When every posted entry balances, the whole posted-line population sums
debits equal to credits, whatever the date filter. -/
theorem postedLines_sub_sum (db : DB) (dateOk : Nat → Bool)
    (hbal : ∀ e ∈ db.entries, e.status = Status.posted →
      (e.lines.map (·.debit)).sum = (e.lines.map (·.credit)).sum) :
    ((postedLines db dateOk).map (fun p => p.2.debit - p.2.credit)).sum = 0 := by
  rw [postedLines, sum_map_flatMap]
  apply List.sum_eq_zero
  intro x hx
  simp only [List.mem_map] at hx
  obtain ⟨e, he, rfl⟩ := hx
  rw [List.mem_filter, Bool.and_eq_true, beq_iff_eq] at he
  rw [List.map_map]
  have hcomp : ((fun p : JournalEntry × JournalLine => p.2.debit - p.2.credit) ∘
      (fun l => (e, l))) = fun l : JournalLine => l.debit - l.credit := rfl
  rw [hcomp, sum_map_sub, hbal e he.1 he.2.1, sub_self]

/-- Filtering the journal to its posted entries first changes no posted-line
population. -/
theorem postedLines_filter_posted (db : DB) (dateOk : Nat → Bool) :
    postedLines
        { db with entries := db.entries.filter (fun e => e.status == Status.posted) }
        dateOk
      = postedLines db dateOk := by
  unfold postedLines
  congr 1
  rw [List.filter_filter]
  apply List.filter_congr
  intro e _
  cases h : (e.status == Status.posted) <;> simp [h]

/-- A null `from_date` filters the same lines as the trivial lower bound 0. -/
theorem postedLines_from_none (db : DB) (to_date : Nat) :
    postedLines db (pnlDateOk none to_date)
      = postedLines db (pnlDateOk (some 0) to_date) := by
  unfold postedLines
  congr 1
  apply List.filter_congr
  intro e _
  simp [pnlDateOk]

/-- The P&L date filter with no lower bound is the plain as-of filter used by
the balance sheet. -/
theorem postedLines_pnl_as_of (db : DB) (to_date : Nat) :
    postedLines db (pnlDateOk none to_date)
      = postedLines db (fun d => decide (d ≤ to_date)) := by
  unfold postedLines
  congr 1
  apply List.filter_congr
  intro e _
  simp [pnlDateOk]

/-- Reading balances back out of rows built by a conditional `filterMap`. -/
theorem sum_filterMap_rows {β : Type} (accts : List Account) (g : Account → Int)
    (q : Account → Bool) (build : Account → Int → β) (proj : β → Int)
    (hproj : ∀ a v, proj (build a v) = v) :
    ((accts.filterMap (fun a => if q a then some (build a (g a)) else none)).map
        proj).sum
      = ((accts.filter q).map g).sum := by
  induction accts with
  | nil => rfl
  | cons a l ih =>
    cases h : q a <;>
      simp [List.filterMap_cons, List.filter_cons, h, hproj, ih]

/-- Splitting a filtered mapped sum along a second predicate. -/
theorem sum_filter_and_split {α : Type} (p q : α → Bool) (f : α → Int) (l : List α) :
    ((l.filter (fun a => p a && q a)).map f).sum
      + ((l.filter (fun a => p a && !q a)).map f).sum
      = ((l.filter p).map f).sum := by
  induction l with
  | nil => simp
  | cons a l ih =>
    cases hp : p a <;> cases hq : q a <;>
      simp [List.filter_cons, hp, hq] <;> omega

/-- Dropping the zero balances from a mapped sum changes nothing. -/
theorem sum_filter_nonzero {α : Type} (g : α → Int) (l : List α) :
    ((l.filter (fun a => !(g a == 0))).map g).sum = (l.map g).sum := by
  induction l with
  | nil => simp
  | cons a l ih =>
    cases h : (g a == 0)
    · simp [List.filter_cons, h, ih]
    · have : g a = 0 := by simpa using h
      simp [List.filter_cons, h, ih, this]

/-- The active-and-typed queryset is a type filter over the active accounts. -/
theorem activeOfType_eq (accounts : List Account) (t : AccountType) :
    activeOfType accounts t
      = (accounts.filter (·.is_active)).filter (fun a => a.account_type == t) := by
  unfold activeOfType
  rw [List.filter_filter]
  apply List.filter_congr
  intro a _
  exact Bool.and_comm _ _

/-- Every account is of exactly one of the five types, so mapped sums over the
five type filters add up to the mapped sum over all accounts. -/
theorem sum_by_type (accts : List Account) (g : Account → Int) :
    ((accts.filter (fun a => a.account_type == AccountType.asset)).map g).sum
      + ((accts.filter (fun a => a.account_type == AccountType.liability)).map g).sum
      + ((accts.filter (fun a => a.account_type == AccountType.equity)).map g).sum
      + ((accts.filter (fun a => a.account_type == AccountType.income)).map g).sum
      + ((accts.filter (fun a => a.account_type == AccountType.expense)).map g).sum
      = (accts.map g).sum := by
  induction accts with
  | nil => simp
  | cons a l ih =>
    cases h : a.account_type <;>
      simp [List.filter_cons, h] <;> omega

/-- An unsigned magnitude recombined with its sign flag is the signed value. -/
theorem signed_of_magnitude (n : Int) :
    (if decide (0 ≤ n) = true then |n| else -|n|) = n := by
  rcases le_or_lt 0 n with h | h
  · simp [h, abs_of_nonneg h]
  · simp [not_le.mpr h, abs_of_neg h]

/-- The two asset subtotals of the balance sheet add up to the sum of every
active asset account's balance (the zero balances dropped from the listing
contribute nothing). -/
theorem bs_assets_total (accounts : List Account)
    (ls : List (JournalEntry × JournalLine)) :
    ((bsCurrentAssets accounts ls).map (·.balance)).sum
      + ((bsNonCurrentAssets accounts ls).map (·.balance)).sum
      = ((activeOfType accounts AccountType.asset).map
          (fun a => bsAccountBalance ls a.code AccountType.asset)).sum := by
  have h1 : ((bsCurrentAssets accounts ls).map (·.balance)).sum
      = (((activeOfType accounts AccountType.asset).filter
            (fun a => !(bsAccountBalance ls a.code AccountType.asset == 0)
              && a.is_current_asset)).map
          (fun a => bsAccountBalance ls a.code AccountType.asset)).sum :=
    sum_filterMap_rows _ _ _ _ _ (fun _ _ => rfl)
  have h2 : ((bsNonCurrentAssets accounts ls).map (·.balance)).sum
      = (((activeOfType accounts AccountType.asset).filter
            (fun a => !(bsAccountBalance ls a.code AccountType.asset == 0)
              && !a.is_current_asset)).map
          (fun a => bsAccountBalance ls a.code AccountType.asset)).sum :=
    sum_filterMap_rows _ _ _ _ _ (fun _ _ => rfl)
  rw [h1, h2, sum_filter_and_split, sum_filter_nonzero]

/-- The liabilities subtotal of the balance sheet is the sum of every active
liability account's balance. -/
theorem bs_liabilities_total (accounts : List Account)
    (ls : List (JournalEntry × JournalLine)) :
    ((bsCurrentLiabilities accounts ls).map (·.balance)).sum
      = ((activeOfType accounts AccountType.liability).map
          (fun a => bsAccountBalance ls a.code AccountType.liability)).sum := by
  have h1 : ((bsCurrentLiabilities accounts ls).map (·.balance)).sum
      = (((activeOfType accounts AccountType.liability).filter
            (fun a => !(bsAccountBalance ls a.code AccountType.liability == 0))).map
          (fun a => bsAccountBalance ls a.code AccountType.liability)).sum :=
    sum_filterMap_rows _ _ _ _ _ (fun _ _ => rfl)
  rw [h1, sum_filter_nonzero]

/-- The equity account sum of the balance sheet is the sum of every active
equity account's balance. -/
theorem bs_equity_total (accounts : List Account)
    (ls : List (JournalEntry × JournalLine)) :
    ((bsEquityRows accounts ls).map (·.balance)).sum
      = ((activeOfType accounts AccountType.equity).map
          (fun a => bsAccountBalance ls a.code AccountType.equity)).sum := by
  unfold bsEquityRows
  rw [List.map_map]
  rfl

/-- The income total of the P&L is the sum of every active income account's
period balance. -/
theorem pnl_income_total (accounts : List Account)
    (ls : List (JournalEntry × JournalLine)) :
    ((pnlIncomeRows accounts ls).map (·.amount)).sum
      = ((activeOfType accounts AccountType.income).map
          (fun a => sumCredit ls a.code - sumDebit ls a.code)).sum := by
  have h1 : ((pnlIncomeRows accounts ls).map (·.amount)).sum
      = (((activeOfType accounts AccountType.income).filter
            (fun a => !((sumCredit ls a.code - sumDebit ls a.code) == 0))).map
          (fun a => sumCredit ls a.code - sumDebit ls a.code)).sum :=
    sum_filterMap_rows _ _ _ _ _ (fun _ _ => rfl)
  rw [h1, sum_filter_nonzero]

/-- The expense total of the P&L is the sum of every active expense account's
period balance. -/
theorem pnl_expense_total (accounts : List Account)
    (ls : List (JournalEntry × JournalLine)) :
    ((pnlExpenseRows accounts ls).map (·.amount)).sum
      = ((activeOfType accounts AccountType.expense).map
          (fun a => sumDebit ls a.code - sumCredit ls a.code)).sum := by
  have h1 : ((pnlExpenseRows accounts ls).map (·.amount)).sum
      = (((activeOfType accounts AccountType.expense).filter
            (fun a => !((sumDebit ls a.code - sumCredit ls a.code) == 0))).map
          (fun a => sumDebit ls a.code - sumCredit ls a.code)).sum :=
    sum_filterMap_rows _ _ _ _ _ (fun _ _ => rfl)
  rw [h1, sum_filter_nonzero]

/-- When every posted entry balances, posted lines all resolve to active
accounts and account codes are unique, the active accounts' debit-minus-credit
aggregates sum to zero: grouping the zero-sum posted-line population by
account code loses nothing. -/
theorem active_sum_zero (db : DB) (dateOk : Nat → Bool)
    (hcodes : (db.accounts.map (·.code)).Nodup)
    (hbal : ∀ e ∈ db.entries, e.status = Status.posted →
      (e.lines.map (·.debit)).sum = (e.lines.map (·.credit)).sum)
    (hres : ∀ e ∈ db.entries, e.status = Status.posted → ∀ l ∈ e.lines,
      ∃ a ∈ db.accounts, a.is_active = true ∧ a.code = l.account_code) :
    ((db.accounts.filter (·.is_active)).map
        (fun a => sumDebit (postedLines db dateOk) a.code
          - sumCredit (postedLines db dateOk) a.code)).sum = 0 := by
  have hpoint : ∀ a ∈ db.accounts.filter (·.is_active),
      sumDebit (postedLines db dateOk) a.code
          - sumCredit (postedLines db dateOk) a.code
        = (((postedLines db dateOk).filter
              (fun p => p.2.account_code == a.code)).map
            (fun p => p.2.debit - p.2.credit)).sum := by
    intro a _
    rw [sum_map_sub]
    rfl
  rw [List.map_congr_left hpoint]
  have hmm : (db.accounts.filter (·.is_active)).map
      (fun a => (((postedLines db dateOk).filter
            (fun p => p.2.account_code == a.code)).map
          (fun p => p.2.debit - p.2.credit)).sum)
      = ((db.accounts.filter (·.is_active)).map (·.code)).map
          (fun c => (((postedLines db dateOk).filter
                (fun p => p.2.account_code == c)).map
              (fun p => p.2.debit - p.2.credit)).sum) := by
    rw [List.map_map]
    rfl
  rw [hmm]
  have hnodup : (((db.accounts.filter (·.is_active)).map (·.code))).Nodup :=
    List.Nodup.sublist (List.Sublist.map _ (List.filter_sublist _)) hcodes
  have hcover : ∀ p ∈ postedLines db dateOk,
      p.2.account_code ∈ (db.accounts.filter (·.is_active)).map (·.code) := by
    intro p hp
    obtain ⟨he, hs, _, hl⟩ := mem_postedLines.mp hp
    obtain ⟨a, ha, hact, hcode⟩ := hres p.1 he hs p.2 hl
    exact List.mem_map.mpr ⟨a, List.mem_filter.mpr ⟨ha, hact⟩, hcode⟩
  rw [sum_partition_key (fun p => p.2.account_code) (fun p => p.2.debit - p.2.credit)
      ((db.accounts.filter (·.is_active)).map (·.code)) (postedLines db dateOk)
      hnodup hcover]
  exact postedLines_sub_sum db dateOk hbal

/-- The reported balance-sheet difference, written out over the section
sums. -/
theorem bs_difference_formula (db : DB) (D : Nat) :
    (get_balance_sheet db D).difference
      = ((bsCurrentAssets db.accounts
              (postedLines db (fun d => decide (d ≤ D)))).map (·.balance)).sum
          + ((bsNonCurrentAssets db.accounts
              (postedLines db (fun d => decide (d ≤ D)))).map (·.balance)).sum
        - (((bsCurrentLiabilities db.accounts
                (postedLines db (fun d => decide (d ≤ D)))).map (·.balance)).sum
          + (((bsEquityRows db.accounts
                  (postedLines db (fun d => decide (d ≤ D)))).map (·.balance)).sum
            + (get_balance_sheet db D).retained_earnings)) := rfl

/-- The reported retained earnings are the signed net result of the P&L over
(since inception, as-of]: the unsigned magnitude recombined with the profit
flag. -/
theorem bs_retained_formula (db : DB) (D : Nat) :
    (get_balance_sheet db D).retained_earnings
      = ((pnlIncomeRows db.accounts
            (postedLines db (pnlDateOk none D))).map (·.amount)).sum
        - ((pnlExpenseRows db.accounts
            (postedLines db (pnlDateOk none D))).map (·.amount)).sum :=
  signed_of_magnitude _

/-- Claim C1: for every as-of date the balance sheet reports
difference = total_assets − (total_liabilities + total_equity) (total_equity
folding in retained earnings from the P&L engine over (since inception, D]
with the sign restored from `is_profit`) and `is_balanced` exactly when
|difference| < 0.01; and when every posted entry's lines sum debits equal to
credits and every posted line's code resolves to an active account (account
codes being unique, per the schema's unique constraint), total_assets equals
total_liabilities + total_equity exactly, so within 0.01. -/
theorem C1_balance_sheet_identity (db : DB) (D : Nat)
    (hcodes : (db.accounts.map (·.code)).Nodup)
    (hbal : ∀ e ∈ db.entries, e.status = Status.posted →
      (e.lines.map (·.debit)).sum = (e.lines.map (·.credit)).sum)
    (hres : ∀ e ∈ db.entries, e.status = Status.posted → ∀ l ∈ e.lines,
      ∃ a ∈ db.accounts, a.is_active = true ∧ a.code = l.account_code) :
    (get_balance_sheet db D).difference
        = (get_balance_sheet db D).total_assets
          - ((get_balance_sheet db D).total_liabilities
            + (get_balance_sheet db D).total_equity)
      ∧ ((get_balance_sheet db D).is_balanced = true
          ↔ |(get_balance_sheet db D).difference| < 1)
      ∧ (get_balance_sheet db D).difference = 0 := by
  refine ⟨rfl, decide_eq_true_iff, ?_⟩
  have hAflip : ((activeOfType db.accounts AccountType.asset).map
        (fun a => bsAccountBalance (postedLines db (fun d => decide (d ≤ D)))
          a.code AccountType.asset)).sum
      = ((activeOfType db.accounts AccountType.asset).map
          (fun a => sumDebit (postedLines db (fun d => decide (d ≤ D))) a.code
            - sumCredit (postedLines db (fun d => decide (d ≤ D))) a.code)).sum := rfl
  have hLflip : ((activeOfType db.accounts AccountType.liability).map
        (fun a => bsAccountBalance (postedLines db (fun d => decide (d ≤ D)))
          a.code AccountType.liability)).sum
      = -((activeOfType db.accounts AccountType.liability).map
          (fun a => sumDebit (postedLines db (fun d => decide (d ≤ D))) a.code
            - sumCredit (postedLines db (fun d => decide (d ≤ D))) a.code)).sum := by
    rw [← sum_map_neg]
    apply congrArg List.sum
    apply List.map_congr_left
    intro a _
    show sumCredit (postedLines db (fun d => decide (d ≤ D))) a.code
          - sumDebit (postedLines db (fun d => decide (d ≤ D))) a.code
        = -(sumDebit (postedLines db (fun d => decide (d ≤ D))) a.code
          - sumCredit (postedLines db (fun d => decide (d ≤ D))) a.code)
    omega
  have hEflip : ((activeOfType db.accounts AccountType.equity).map
        (fun a => bsAccountBalance (postedLines db (fun d => decide (d ≤ D)))
          a.code AccountType.equity)).sum
      = -((activeOfType db.accounts AccountType.equity).map
          (fun a => sumDebit (postedLines db (fun d => decide (d ≤ D))) a.code
            - sumCredit (postedLines db (fun d => decide (d ≤ D))) a.code)).sum := by
    rw [← sum_map_neg]
    apply congrArg List.sum
    apply List.map_congr_left
    intro a _
    show sumCredit (postedLines db (fun d => decide (d ≤ D))) a.code
          - sumDebit (postedLines db (fun d => decide (d ≤ D))) a.code
        = -(sumDebit (postedLines db (fun d => decide (d ≤ D))) a.code
          - sumCredit (postedLines db (fun d => decide (d ≤ D))) a.code)
    omega
  have hIflip : ((activeOfType db.accounts AccountType.income).map
        (fun a => sumCredit (postedLines db (fun d => decide (d ≤ D))) a.code
          - sumDebit (postedLines db (fun d => decide (d ≤ D))) a.code)).sum
      = -((activeOfType db.accounts AccountType.income).map
          (fun a => sumDebit (postedLines db (fun d => decide (d ≤ D))) a.code
            - sumCredit (postedLines db (fun d => decide (d ≤ D))) a.code)).sum := by
    rw [← sum_map_neg]
    apply congrArg List.sum
    apply List.map_congr_left
    intro a _
    omega
  have hpart :
      ((activeOfType db.accounts AccountType.asset).map
          (fun a => sumDebit (postedLines db (fun d => decide (d ≤ D))) a.code
            - sumCredit (postedLines db (fun d => decide (d ≤ D))) a.code)).sum
        + ((activeOfType db.accounts AccountType.liability).map
            (fun a => sumDebit (postedLines db (fun d => decide (d ≤ D))) a.code
              - sumCredit (postedLines db (fun d => decide (d ≤ D))) a.code)).sum
        + ((activeOfType db.accounts AccountType.equity).map
            (fun a => sumDebit (postedLines db (fun d => decide (d ≤ D))) a.code
              - sumCredit (postedLines db (fun d => decide (d ≤ D))) a.code)).sum
        + ((activeOfType db.accounts AccountType.income).map
            (fun a => sumDebit (postedLines db (fun d => decide (d ≤ D))) a.code
              - sumCredit (postedLines db (fun d => decide (d ≤ D))) a.code)).sum
        + ((activeOfType db.accounts AccountType.expense).map
            (fun a => sumDebit (postedLines db (fun d => decide (d ≤ D))) a.code
              - sumCredit (postedLines db (fun d => decide (d ≤ D))) a.code)).sum
      = ((db.accounts.filter (·.is_active)).map
          (fun a => sumDebit (postedLines db (fun d => decide (d ≤ D))) a.code
            - sumCredit (postedLines db (fun d => decide (d ≤ D))) a.code)).sum := by
    simp only [activeOfType_eq]
    exact sum_by_type _ _
  have hzero := active_sum_zero db (fun d => decide (d ≤ D)) hcodes hbal hres
  rw [bs_difference_formula, bs_retained_formula, postedLines_pnl_as_of,
    pnl_income_total, pnl_expense_total, bs_assets_total, bs_liabilities_total,
    bs_equity_total, hAflip, hLflip, hEflip, hIflip]
  omega

/-- Witness for C1: the balance sheet of the sample database at date 10. -/
theorem C1_balance_sheet_identity_witness :
    (get_balance_sheet sampleDB 10).difference
        = (get_balance_sheet sampleDB 10).total_assets
          - ((get_balance_sheet sampleDB 10).total_liabilities
            + (get_balance_sheet sampleDB 10).total_equity)
      ∧ ((get_balance_sheet sampleDB 10).is_balanced = true
          ↔ |(get_balance_sheet sampleDB 10).difference| < 1)
      ∧ (get_balance_sheet sampleDB 10).difference = 0 :=
  C1_balance_sheet_identity sampleDB 10 (by decide) (by decide) (by decide)

/-- Claim C2: every statement computation — trial balance, profit and loss,
balance sheet, account ledger — reads journal lines only through the
posted-status filter, so restricting the journal to its posted entries first
changes no output: entries in draft, flagged, pending_review, approved or
rejected status contribute nothing to any aggregate. -/
theorem C2_only_posted_contribute (db : DB) (as_of today : Nat)
    (from_date to_date? : Option Nat) (code : String) (s e : Option Nat) :
    get_trial_balance
        { db with entries := db.entries.filter (fun en => en.status == Status.posted) }
        as_of
      = get_trial_balance db as_of
    ∧ get_profit_loss
        { db with entries := db.entries.filter (fun en => en.status == Status.posted) }
        today from_date to_date?
      = get_profit_loss db today from_date to_date?
    ∧ get_balance_sheet
        { db with entries := db.entries.filter (fun en => en.status == Status.posted) }
        as_of
      = get_balance_sheet db as_of
    ∧ get_account_ledger
        { db with entries := db.entries.filter (fun en => en.status == Status.posted) }
        code s e
      = get_account_ledger db code s e := by
  refine ⟨?_, ?_, ?_, ?_⟩ <;>
    simp only [get_trial_balance, tbAccountBalance, get_profit_loss,
      get_balance_sheet, get_account_ledger, postedLines_filter_posted]

/-- Claim C3: approving an entry whose total debit differs from its total
credit fails with the validation error naming the precondition, and posting
an entry whose status is not approved fails with the error naming that
precondition; in both cases the operation returns through the error branch,
so the stored entry is left untouched and the illegal transition is never
applied or silently corrected. -/
theorem C3_lifecycle_guards (e₁ e₂ : JournalEntry) (reviewer notes : String)
    (now : Nat) (h₁ : e₁.is_balanced = false) (h₂ : e₂.status ≠ Status.approved) :
    e₁.approve reviewer notes now = Except.error "Cannot approve unbalanced entry"
    ∧ e₂.post now = Except.error "Only approved entries can be posted" := by
  constructor
  · simp [JournalEntry.approve, h₁]
  · simp [JournalEntry.post, h₂]

/-- Witness for C3: the unbalanced draft cannot be approved and, being a
draft, cannot be posted. -/
theorem C3_lifecycle_guards_witness :
    unbalancedDraft.approve "reviewer" "" 0
        = Except.error "Cannot approve unbalanced entry"
    ∧ unbalancedDraft.post 0
        = Except.error "Only approved entries can be posted" :=
  C3_lifecycle_guards unbalancedDraft unbalancedDraft "reviewer" "" 0
    (by decide) (by decide)

/-- Claim C4 states that no lifecycle operation moves an entry out of the
posted status; the source's `reject` (and `approve`) has no status guard, so
a posted entry is moved to rejected (or back to approved) — the failing input
evaluated here. `post` alone refuses. -/
theorem C4_posted_escapes :
    postedEntry.status = Status.posted
    ∧ (postedEntry.reject "reviewer" "undo" 12).status = Status.rejected
    ∧ (postedEntry.approve "reviewer" "" 12)
        = Except.ok { postedEntry with
                      status := Status.approved,
                      reviewed_by := "reviewer",
                      review_notes := "",
                      reviewed_at := some 12 }
    ∧ postedEntry.post 12 = Except.error "Only approved entries can be posted" := by
  exact ⟨rfl, rfl, rfl, rfl⟩

/-- Claim C5: for every date range `get_profit_loss` reports
`net_profit_loss` as the absolute value of total_income − total_expenses,
with `is_profit` true exactly when total_income − total_expenses ≥ 0 (so the
signed net result is recovered only from both fields together); a null
`to_date` defaults to today, and a null `from_date` means since inception —
it computes the same statement as the trivial lower bound 0, the earliest
representable date. -/
theorem C5_pnl_sign_convention (db : DB) (today : Nat)
    (from_date to_date? : Option Nat) :
    (get_profit_loss db today from_date to_date?).net_profit_loss
        = |(get_profit_loss db today from_date to_date?).total_income
            - (get_profit_loss db today from_date to_date?).total_expenses|
    ∧ ((get_profit_loss db today from_date to_date?).is_profit = true
        ↔ 0 ≤ (get_profit_loss db today from_date to_date?).total_income
            - (get_profit_loss db today from_date to_date?).total_expenses)
    ∧ (get_profit_loss db today from_date to_date?).to_date = to_date?.getD today
    ∧ (get_profit_loss db today from_date none).to_date = today
    ∧ get_profit_loss db today none to_date?
        = { get_profit_loss db today (some 0) to_date? with from_date := none } := by
  refine ⟨rfl, decide_eq_true_iff, rfl, rfl, ?_⟩
  have h := postedLines_from_none db (to_date?.getD today)
  simp only [get_profit_loss, h]

/-- Every (debit_balance, credit_balance) pair computed for the trial balance
is non-negative and has at most one non-zero side. -/
theorem tbAccountBalance_sides (db : DB) (a : Account) (as_of : Nat) :
    0 ≤ (tbAccountBalance db a as_of).1 ∧ 0 ≤ (tbAccountBalance db a as_of).2
      ∧ ((tbAccountBalance db a as_of).1 = 0 ∨ (tbAccountBalance db a as_of).2 = 0) := by
  unfold tbAccountBalance
  cases a.account_type <;> dsimp only <;> split_ifs with h <;>
    refine ⟨?_, ?_, ?_⟩ <;>
    first
      | exact h
      | exact le_refl 0
      | exact abs_nonneg _
      | exact Or.inl rfl
      | exact Or.inr rfl

/-- Claim C6 (amended): every row included in the trial balance output shows
non-negative balances with at most one non-zero side — a negative normal-side
balance is re-expressed as a positive balance on the opposite side, and no
displayed balance is negative; rows of non-expense accounts have exactly one
non-zero side, while an expense account may be listed with zero on both sides
(expense accounts are included even at zero balance for visibility). -/
theorem C6_trial_balance_sides (db : DB) (as_of : Nat) (r : AccountType × TBRow)
    (hr : r ∈ (get_trial_balance db as_of).rows) :
    0 ≤ r.2.debit_balance ∧ 0 ≤ r.2.credit_balance
    ∧ (r.2.debit_balance = 0 ∨ r.2.credit_balance = 0)
    ∧ (r.1 ≠ AccountType.expense →
        ¬(r.2.debit_balance = 0 ∧ r.2.credit_balance = 0)) := by
  simp only [get_trial_balance, List.mem_filterMap] at hr
  obtain ⟨a, ha, hfa⟩ := hr
  by_cases hcond : (a.account_type == AccountType.expense
      || !((tbAccountBalance db a as_of).1 == 0)
      || !((tbAccountBalance db a as_of).2 == 0)) = true
  · rw [if_pos hcond] at hfa
    obtain rfl := (Option.some_inj.mp hfa).symm
    obtain ⟨h1, h2, h3⟩ := tbAccountBalance_sides db a as_of
    refine ⟨h1, h2, h3, ?_⟩
    intro hne habs
    rw [show ((a.account_type, TBRow.mk a.code a.name
          (tbAccountBalance db a as_of).1 (tbAccountBalance db a as_of).2)).2.debit_balance
        = (tbAccountBalance db a as_of).1 from rfl] at habs
    rw [show ((a.account_type, TBRow.mk a.code a.name
          (tbAccountBalance db a as_of).1 (tbAccountBalance db a as_of).2)).2.credit_balance
        = (tbAccountBalance db a as_of).2 from rfl] at habs
    rw [habs.1, habs.2] at hcond
    simp only [beq_self_eq_true, Bool.not_true, Bool.or_false] at hcond
    exact hne (by simpa using hcond)
  · rw [if_neg hcond] at hfa
    exact absurd hfa (by simp)

/-- Counterexample to C6 as stated: with an active expense account and an
empty journal the trial balance still lists the expense account, and its row
carries zero on both sides, so not exactly one side is non-zero. -/
theorem C6_counterexample :
    ¬ (∀ r ∈ (get_trial_balance expenseOnlyDB 0).rows,
        r.2.debit_balance ≠ 0 ∨ r.2.credit_balance ≠ 0) := by
  decide

/-- Witness for the amended C6 at a concrete included row. -/
theorem C6_trial_balance_sides_witness :
    ((AccountType.expense, TBRow.mk "E004" "Miscellaneous Expense" 0 0)
        ∈ (get_trial_balance expenseOnlyDB 0).rows)
    ∧ (0 ≤ (0:Int) ∧ 0 ≤ (0:Int) ∧ ((0:Int) = 0 ∨ (0:Int) = 0)
        ∧ (AccountType.expense ≠ AccountType.expense →
            ¬((0:Int) = 0 ∧ (0:Int) = 0))) :=
  ⟨by decide, C6_trial_balance_sides expenseOnlyDB 0
    (AccountType.expense, TBRow.mk "E004" "Miscellaneous Expense" 0 0) (by decide)⟩

/-- The rows emitted by the ledger walk carry, in total, the same signed
contribution as the lines they were built from, from whatever opening
balance the walk starts. -/
theorem ledgerRowsFrom_contribution (t : AccountType) :
    ∀ (l : List (JournalEntry × JournalLine)) (bal : Int),
      ((ledgerRowsFrom t bal l).map (rowContribution t)).sum
        = (l.map (fun p => lineContribution t p.2)).sum := by
  intro l
  induction l with
  | nil => intro bal; rfl
  | cons p rest ih =>
    intro bal
    have hrow : rowContribution t (LedgerRow.mk p.1.transaction_date
        p.1.entry_number p.1.id p.1.narration p.1.reference p.1.transaction_type
        p.2.debit p.2.credit (bal + lineContribution t p.2))
        = lineContribution t p.2 := by
      cases t <;> rfl
    simp [ledgerRowsFrom, ih, hrow]

/-- Claim C7: for an existing account, the ledger computed without a date
window opens at 0 and closes at the account's aggregate posted balance under
the type sign convention — `Account.balance` — and equally at the opening
balance plus the signed per-line contributions of the emitted rows. -/
theorem C7_ledger_round_trip (db : DB) (code : String) (a : Account)
    (ha : db.accounts.find? (fun x => x.code == code) = some a) :
    ∃ L, get_account_ledger db code none none = LedgerResult.found L
      ∧ L.opening_balance = 0
      ∧ L.closing_balance = Account.balance db a
      ∧ L.closing_balance
          = L.opening_balance
            + ((L.transactions.map (rowContribution a.account_type)).sum) := by
  have hac : a.code = code := by
    have hp := List.find?_some ha
    simpa using hp
  unfold get_account_ledger
  rw [ha]
  refine ⟨_, rfl, rfl, ?_, ?_⟩
  · show ((((postedLines db (fun _ => true)).filter
          (fun p => p.2.account_code == code)).mergeSort ledgerLE).filter
            (fun _ => true)).foldl
        (fun b p => b + lineContribution a.account_type p.2) 0
      = Account.balance db a
    rw [List.filter_true, foldl_add_sum, zero_add,
      ((List.mergeSort_perm _ ledgerLE).map
        (fun p => lineContribution a.account_type p.2)).sum_eq]
    unfold Account.balance
    rw [hac]
    cases a.account_type
    all_goals exact sum_map_sub _ _ _
  · show ((((postedLines db (fun _ => true)).filter
          (fun p => p.2.account_code == code)).mergeSort ledgerLE).filter
            (fun _ => true)).foldl
        (fun b p => b + lineContribution a.account_type p.2) 0
      = 0 + ((ledgerRowsFrom a.account_type 0
          ((((postedLines db (fun _ => true)).filter
              (fun p => p.2.account_code == code)).mergeSort ledgerLE).filter
                (fun _ => true))).map (rowContribution a.account_type)).sum
    rw [ledgerRowsFrom_contribution, foldl_add_sum]

/-- Witness for C7: the sample bank account's ledger closes at the account's
aggregate balance. -/
theorem C7_ledger_round_trip_witness :
    ∃ L, get_account_ledger sampleDB "A001" none none = LedgerResult.found L
      ∧ L.opening_balance = 0
      ∧ L.closing_balance = Account.balance sampleDB
          ⟨"A001", "SBI Current", AccountType.asset, "cash_and_bank", true⟩
      ∧ L.closing_balance
          = L.opening_balance
            + ((L.transactions.map (rowContribution AccountType.asset)).sum) :=
  C7_ledger_round_trip sampleDB "A001"
    ⟨"A001", "SBI Current", AccountType.asset, "cash_and_bank", true⟩ (by decide)

/-- Claim C8: a ledger request for a code no account carries does not reach
any balance computation: it returns the explicit not-found record — an error
naming the missing account, a null account and an empty transaction list —
whatever date window was requested. -/
theorem C8_ledger_not_found (db : DB) (code : String) (s e : Option Nat)
    (h : db.accounts.find? (fun a => a.code == code) = none) :
    get_account_ledger db code s e
      = LedgerResult.notFound ("Account " ++ code ++ " not found") none [] := by
  unfold get_account_ledger
  rw [h]

/-- Witness for C8: the empty database resolves no account code. -/
theorem C8_ledger_not_found_witness :
    get_account_ledger emptyDB "A001" none none
      = LedgerResult.notFound ("Account " ++ "A001" ++ " not found") none [] :=
  C8_ledger_not_found emptyDB "A001" none none (by decide)

/-- Claim C9: splitting the 18%-inclusive total 118000.00 (11800000 paise)
yields base 100000.00, cgst 9000.00 and sgst 9000.00, and the three parts add
back to exactly 118000.00 — the rounding remainder, had there been one, being
absorbed into sgst. -/
theorem C9_gst_breakdown :
    GSTBreakdown.from_inclusive_amount 11800000
        = { total_amount := 11800000, base_amount := 10000000,
            cgst := 900000, sgst := 900000 }
    ∧ (GSTBreakdown.from_inclusive_amount 11800000).base_amount
        + (GSTBreakdown.from_inclusive_amount 11800000).cgst
        + (GSTBreakdown.from_inclusive_amount 11800000).sgst
      = 11800000 := by
  exact ⟨by decide, by decide⟩

/-- Claim C10: the stored entry's balance guard checks only the aggregate
equality of the two line sums (absent sums read as 0): `approve` errors
exactly when the aggregates differ, so an entry with no lines, or each of
whose lines carries the same positive amount as both debit and credit (a
shape the stored line model accepts), counts as balanced, and such an entry
is approved and can then be posted. -/
theorem C10_aggregate_only_guard (e eU : JournalEntry) (reviewer notes : String)
    (t t' : Nat) (h : ∀ l ∈ e.lines, l.debit = l.credit) :
    e.is_balanced = true
    ∧ (eU.is_balanced
        = ((eU.lines.map (·.debit)).sum == (eU.lines.map (·.credit)).sum))
    ∧ (eU.approve reviewer notes t = Except.error "Cannot approve unbalanced entry"
        ↔ eU.is_balanced = false)
    ∧ ∃ e₁, e.approve reviewer notes t = Except.ok e₁
        ∧ e₁.status = Status.approved
        ∧ ∃ e₂, e₁.post t' = Except.ok e₂ ∧ e₂.status = Status.posted := by
  have hbal : e.is_balanced = true := by
    unfold JournalEntry.is_balanced
    rw [List.map_congr_left h]
    exact beq_self_eq_true _
  refine ⟨hbal, rfl, ?_, ?_⟩
  · cases hb : eU.is_balanced
    · simp [JournalEntry.approve, hb]
    · simp [JournalEntry.approve, hb]
  · refine ⟨{ e with
              status := .approved,
              reviewed_by := reviewer,
              review_notes := notes,
              reviewed_at := some t }, ?_, rfl,
      { e with
        status := .posted,
        reviewed_by := reviewer,
        review_notes := notes,
        reviewed_at := some t,
        posted_at := some t' },
      ?_, rfl⟩
    · unfold JournalEntry.approve
      rw [hbal]
      rfl
    · rfl

/-- Witness for C10: the draft whose single line holds 500.00 on both sides
counts as balanced and walks approve-then-post; the unbalanced draft
instantiates the exactly-when-unbalanced characterization. -/
theorem C10_aggregate_only_guard_witness :
    equalSidesDraft.is_balanced = true
    ∧ (unbalancedDraft.is_balanced
        = ((unbalancedDraft.lines.map (·.debit)).sum
            == (unbalancedDraft.lines.map (·.credit)).sum))
    ∧ (unbalancedDraft.approve "reviewer" "" 0
          = Except.error "Cannot approve unbalanced entry"
        ↔ unbalancedDraft.is_balanced = false)
    ∧ ∃ e₁, equalSidesDraft.approve "reviewer" "" 0 = Except.ok e₁
        ∧ e₁.status = Status.approved
        ∧ ∃ e₂, e₁.post 1 = Except.ok e₂ ∧ e₂.status = Status.posted :=
  C10_aggregate_only_guard equalSidesDraft unbalancedDraft "reviewer" "" 0 1
    (by decide)

end Prilika
